import Mathlib

/-!
# hanvon8.c: USB Hanvon tablet driver

A shallow embedding of `hanvon8.c`.  Every driver function is a Lean function
that returns the list of kernel calls it makes, in program order, together with
its return value and the state it leaves.  Results of kernel calls that the
driver branches on (allocation results, `usb_submit_urb` and
`input_register_device` return codes) are inputs of the embedded function.
-/

namespace Hanvon8

/-! ## Constants -/

/-- Length of one interrupt packet (`#define USB_AM_PACKET_LEN 8`). -/
abbrev USB_AM_PACKET_LEN : Nat := 8

/-- Declared pressure maximum (`#define AM_MAX_PRESSURE 0x400`). -/
def AM_MAX_PRESSURE : Nat := 0x400

/-- Declared X maximum (`#define AM_MAX_ABS_X 0x27de`). -/
def AM_MAX_ABS_X : Nat := 0x27de

/-- Declared Y maximum (`#define AM_MAX_ABS_Y 0x1cfe`). -/
def AM_MAX_ABS_Y : Nat := 0x1cfe

/-- Linux errno `ENOENT` (asm-generic/errno-base.h; the header is not part of the driver). -/
def ENOENT : Int := 2

/-- Linux errno `EIO` (asm-generic/errno-base.h). -/
def EIO : Int := 5

/-- Linux errno `ENOMEM` (asm-generic/errno-base.h). -/
def ENOMEM : Int := 12

/-- Linux errno `ECONNRESET` (asm-generic/errno.h). -/
def ECONNRESET : Int := 104

/-- Linux errno `ESHUTDOWN` (asm-generic/errno.h). -/
def ESHUTDOWN : Int := 108

/-! ## Data model -/

/-- A kernel pointer, as an address; a nullable pointer is an `Option Ptr`. -/
abbrev Ptr := Nat

/-- An `unsigned char`. -/
abbrev Byte := Fin 256

/-- The contents of the 8-byte buffer `hanvon->data`. -/
abbrev Packet := Fin USB_AM_PACKET_LEN → Byte

/-- Packet with the given bytes (missing positions read as 0). -/
def Packet.ofList (l : List Byte) : Packet := fun i => l.getD i.val 0

/-- Key codes the driver reports. -/
inductive KeyCode
  | BTN_LEFT
  | BTN_RIGHT
  deriving DecidableEq, Repr

/-- Absolute axes the driver reports or declares. -/
inductive AbsCode
  | ABS_X
  | ABS_Y
  | ABS_PRESSURE
  deriving DecidableEq, Repr

/-- One kernel call made by the driver, with the arguments that matter and,
for calls whose result the driver inspects, the result. -/
inductive Call
  | input_report_key (code : KeyCode) (value : Nat)
  | input_report_abs (code : AbsCode) (value : Nat)
  | input_sync
  | usb_submit_urb (ret : Int)
  | usb_kill_urb
  | printk
  | kzalloc (res : Option Ptr)
  | input_allocate_device (res : Option Ptr)
  | usb_alloc_coherent (res : Option Ptr)
  | usb_alloc_urb (res : Option Ptr)
  | input_set_abs_params (code : AbsCode) (min max fuzz flat : Nat)
  | input_register_device (ret : Int)
  | input_unregister_device (dev : Ptr)
  | usb_set_intfdata (ctx : Option Ptr)
  | usb_free_urb (urb : Option Ptr)
  | usb_free_coherent (data : Option Ptr)
  | input_free_device (dev : Option Ptr)
  | kfree (p : Option Ptr)
  deriving DecidableEq, Repr

/-- The part of `struct urb` the driver touches, with the USB core's
bookkeeping of accepted submissions that have not been retired yet. -/
structure urb where
  addr : Ptr
  dev : Ptr
  transfer_dma : Ptr
  outstanding : Nat
  deriving DecidableEq, Repr

/-- Device context `struct hanvon`; `addr` is the address `kzalloc` returned. -/
structure hanvon where
  addr : Ptr
  data : Ptr
  data_dma : Ptr
  dev : Ptr
  usbdev : Ptr
  irq : urb
  deriving DecidableEq, Repr

/-- A `struct usb_interface`: the device it belongs to and its driver data. -/
structure usb_interface where
  usbdev : Ptr
  intfdata : Option hanvon
  deriving DecidableEq, Repr

/-- The sample a consumer of the input device sees. -/
structure DecodedSample where
  touching : Bool
  secondaryButton : Bool
  x : Nat
  y : Nat
  pressure : Nat
  deriving DecidableEq, Repr

/-! ## Kernel helpers -/

/-- `get_unaligned_le16(&data[i])`: `data[i] | data[i+1] << 8`. -/
def get_unaligned_le16 (lo hi : Byte) : Nat := lo.val ||| (hi.val <<< 8)

/-- What the input core stores for one report: `input_report_key` passes
`!!value`, `input_report_abs` the value itself; other calls leave the sample. -/
def DecodedSample.apply (s : DecodedSample) : Call → DecodedSample
  | .input_report_key .BTN_LEFT v => { s with touching := decide (v ≠ 0) }
  | .input_report_key .BTN_RIGHT v => { s with secondaryButton := decide (v ≠ 0) }
  | .input_report_abs .ABS_X v => { s with x := v }
  | .input_report_abs .ABS_Y v => { s with y := v }
  | .input_report_abs .ABS_PRESSURE v => { s with pressure := v }
  | _ => s

/-- The sample carried by a run of reports, starting from an all-zero sample. -/
def reported_sample (tr : List Call) : DecodedSample :=
  tr.foldl DecodedSample.apply ⟨false, false, 0, 0, 0⟩

/-- Whether the call delivers something to the input device (report or sync). -/
def Call.is_sink : Call → Bool
  | .input_report_key _ _ => true
  | .input_report_abs _ _ => true
  | .input_sync => true
  | _ => false

/-- Whether the call is a button or axis report. -/
def Call.is_report : Call → Bool
  | .input_report_key _ _ => true
  | .input_report_abs _ _ => true
  | _ => false

/-- Whether the call is a submission of the transfer. -/
def Call.is_submit : Call → Bool
  | .usb_submit_urb _ => true
  | _ => false

/-! ## handle_default and hanvon_irq -/

/-- `handle_default`: the five reports made from the packet. -/
def handle_default (data : Packet) : List Call :=
  [ .input_report_key .BTN_LEFT ((data 1).val &&& 0x01),
    .input_report_key .BTN_RIGHT ((data 1).val &&& 0x02),
    .input_report_abs .ABS_X (get_unaligned_le16 (data 2) (data 3)),
    .input_report_abs .ABS_Y (get_unaligned_le16 (data 4) (data 5)),
    .input_report_abs .ABS_PRESSURE (get_unaligned_le16 (data 6) (data 7)) ]

/-- The shutdown class of completion statuses: `-ECONNRESET`, `-ENOENT`, `-ESHUTDOWN`. -/
def is_shutdown (status : Int) : Bool :=
  status == -ECONNRESET || status == -ENOENT || status == -ESHUTDOWN

/-- Effect of `usb_submit_urb(urb, ..)` on the URB when the USB core answers
`ret`: an accepted submission (`ret = 0`) is one more outstanding transfer, a
rejected one leaves the URB as it was. -/
def usb_submit_urb (u : urb) (ret : Int) : urb :=
  if ret = 0 then { u with outstanding := u.outstanding + 1 } else u

/-- Effect of `usb_kill_urb(urb)` on the URB: when it returns, the URB is idle. -/
def usb_kill_urb (u : urb) : urb :=
  { u with outstanding := 0 }

/-- The `switch (urb->status)` of `hanvon_irq`: the calls made in the arm
taken, and whether the arm leaves the function (`return`) instead of the
switch (`break`). -/
def hanvon_irq_switch (data : Packet) (status : Int) : List Call × Bool :=
  if status = 0 then
    (handle_default data, false)
  else if status = -ECONNRESET ∨ status = -ENOENT ∨ status = -ESHUTDOWN then
    ([.printk], true)
  else
    ([.printk], false)

/-- `hanvon_irq`: completion handler.  `h` is `urb->context`, `data` the buffer
contents at completion, `status` is `urb->status`, `retval` what
`usb_submit_urb` answers if it is called. -/
def hanvon_irq (h : hanvon) (data : Packet) (status : Int) (retval : Int) :
    hanvon × List Call :=
  match hanvon_irq_switch data status with
  | (pre, true) => (h, pre)
  | (pre, false) =>
    ( { h with irq := usb_submit_urb h.irq retval },
      pre ++ [.input_sync, .usb_submit_urb retval] ++
        (if retval ≠ 0 then [.printk] else []) )

/-! ## hanvon_open and hanvon_close -/

/-- `hanvon_open`: returns the context, the return value and the calls made;
`ret` is what `usb_submit_urb` answers. -/
def hanvon_open (h : hanvon) (ret : Int) : hanvon × Int × List Call :=
  let h1 : hanvon := { h with irq := { h.irq with dev := h.usbdev } }
  if ret ≠ 0 then
    ({ h1 with irq := usb_submit_urb h1.irq ret }, - EIO, [.usb_submit_urb ret])
  else
    ({ h1 with irq := usb_submit_urb h1.irq ret }, 0, [.usb_submit_urb ret])

/-- `hanvon_close`: kills the URB. -/
def hanvon_close (h : hanvon) : hanvon × List Call :=
  ({ h with irq := usb_kill_urb h.irq }, [.usb_kill_urb])

/-! ## hanvon_probe and hanvon_disconnect -/

/-- Label `fail1` of `hanvon_probe` and what follows it. -/
def probe_fail1 (kz idev : Option Ptr) : List Call :=
  [.input_free_device idev, .kfree kz]

/-- Label `fail2` of `hanvon_probe`, falling through to `fail1`. -/
def probe_fail2 (kz idev : Option Ptr) (data : Option Ptr) : List Call :=
  .usb_free_coherent data :: probe_fail1 kz idev

/-- Label `fail3` of `hanvon_probe`, falling through to `fail2`. -/
def probe_fail3 (kz idev : Option Ptr) (data : Option Ptr) (u : Option Ptr) : List Call :=
  .usb_free_urb u :: probe_fail2 kz idev data

/-- The three `input_set_abs_params` calls of `hanvon_probe`. -/
def probe_abs_params : List Call :=
  [ .input_set_abs_params .ABS_X 0 AM_MAX_ABS_X 4 0,
    .input_set_abs_params .ABS_Y 0 AM_MAX_ABS_Y 4 0,
    .input_set_abs_params .ABS_PRESSURE 0 AM_MAX_PRESSURE 0 0 ]

/-- `hanvon_probe`.  `kz`, `idev`, `data`, `u` are what `kzalloc`,
`input_allocate_device`, `usb_alloc_coherent` and `usb_alloc_urb` return
(`none` is NULL), `dma` the DMA address stored by `usb_alloc_coherent`, `reg`
what `input_register_device` returns.  Result: the interface afterwards, the
return value, the calls made. -/
def hanvon_probe (intf : usb_interface) (kz idev data : Option Ptr) (dma : Ptr)
    (u : Option Ptr) (reg : Int) : usb_interface × Int × List Call :=
  let error : Int := - ENOMEM
  let t0 : List Call := [.kzalloc kz, .input_allocate_device idev]
  match kz, idev with
  | some hp, some ip =>
    let t1 := t0 ++ [.usb_alloc_coherent data]
    match data with
    | none => (intf, error, t1 ++ probe_fail1 kz idev)
    | some dp =>
      let t2 := t1 ++ [.usb_alloc_urb u]
      match u with
      | none => (intf, error, t2 ++ probe_fail2 kz idev data)
      | some up =>
        let h : hanvon :=
          { addr := hp, data := dp, data_dma := dma, dev := ip, usbdev := intf.usbdev,
            irq := { addr := up, dev := intf.usbdev, transfer_dma := dma, outstanding := 0 } }
        let t3 := t2 ++ probe_abs_params ++ [.input_register_device reg]
        let error := reg
        if error ≠ 0 then
          (intf, error, t3 ++ probe_fail3 kz idev data u)
        else
          ({ intf with intfdata := some h }, 0, t3 ++ [.usb_set_intfdata (some hp)])
  | _, _ => (intf, error, t0 ++ probe_fail1 kz idev)

/-- `hanvon_disconnect`: the interface afterwards and the calls made. -/
def hanvon_disconnect (intf : usb_interface) : usb_interface × List Call :=
  let t0 : List Call := [.usb_set_intfdata none]
  match intf.intfdata with
  | some h =>
    ( { intf with intfdata := none },
      t0 ++ [ .usb_kill_urb, .input_unregister_device h.dev, .usb_free_urb (some h.irq.addr),
              .usb_free_coherent (some h.data), .kfree (some h.addr) ] )
  | none => ({ intf with intfdata := none }, t0)

/-! ## Resource accounting on a trace -/

/-- The sub-resources a device context is made of. -/
inductive Resource
  | context
  | input_device
  | packet_buffer
  | transfer_handle
  deriving DecidableEq, Repr

/-- The resource a call acquires, if it acquires one (a NULL result acquires nothing). -/
def Call.acquired : Call → Option (Resource × Ptr)
  | .kzalloc (some p) => some (.context, p)
  | .input_allocate_device (some p) => some (.input_device, p)
  | .usb_alloc_coherent (some p) => some (.packet_buffer, p)
  | .usb_alloc_urb (some p) => some (.transfer_handle, p)
  | _ => none

/-- The resource a call releases, if it releases one (freeing NULL releases nothing). -/
def Call.released : Call → Option (Resource × Ptr)
  | .kfree (some p) => some (.context, p)
  | .input_free_device (some p) => some (.input_device, p)
  | .input_unregister_device p => some (.input_device, p)
  | .usb_free_coherent (some p) => some (.packet_buffer, p)
  | .usb_free_urb (some p) => some (.transfer_handle, p)
  | _ => none

/-- Outstanding transfers after a call, given the number before it. -/
def outstanding_after (n : Nat) : Call → Nat
  | .usb_submit_urb ret => if ret = 0 then n + 1 else n
  | .usb_kill_urb => 0
  | _ => n

/-- Whether the call frees the transfer handle or the packet buffer. -/
def Call.frees_transfer : Call → Bool
  | .usb_free_urb _ => true
  | .usb_free_coherent _ => true
  | _ => false

/-- Whether, running the calls from `n` outstanding transfers, every free of
the transfer handle or of the packet buffer happens with none outstanding. -/
def frees_when_idle : Nat → List Call → Bool
  | _, [] => true
  | n, c :: cs => (!c.frees_transfer || n == 0) && frees_when_idle (outstanding_after n c) cs

/-- One completion as the USB core delivers it: the buffer contents, the
status, and the answer a resubmission would get. -/
structure Completion where
  data : Packet
  status : Int
  retval : Int

/-- The USB core settles one transfer and calls the handler. -/
def complete (h : hanvon) (c : Completion) : hanvon × List Call :=
  hanvon_irq { h with irq := { h.irq with outstanding := h.irq.outstanding - 1 } }
    c.data c.status c.retval

/-- A run of completions, one after the other; the calls of all handlers in order. -/
def complete_all : hanvon → List Completion → hanvon × List Call
  | h, [] => (h, [])
  | h, c :: cs =>
    let r := complete h c
    let rs := complete_all r.1 cs
    (rs.1, r.2 ++ rs.2)

/-! ## Predicates and example values -/

/-- A context in which the URB's device is the context's device, as
`usb_fill_int_urb` in `hanvon_probe` leaves it. -/
def urb_dev_set (h : hanvon) : Prop := h.irq.dev = h.usbdev

/-- A device context as `hanvon_probe` builds it, with no transfer outstanding. -/
def ctx_idle : hanvon :=
  { addr := 0x1000, data := 0x2000, data_dma := 0x3000, dev := 0x4000, usbdev := 0x5000,
    irq := { addr := 0x6000, dev := 0x5000, transfer_dma := 0x3000, outstanding := 0 } }

/-- The same device context with one transfer outstanding. -/
def ctx_armed : hanvon :=
  { ctx_idle with irq := { ctx_idle.irq with outstanding := 1 } }

/-- An interface with the idle context attached. -/
def intf_bound : usb_interface := { usbdev := 0x5000, intfdata := some ctx_idle }

/-- An interface with no context attached, as the USB core hands it to `hanvon_probe`. -/
def intf_unbound : usb_interface := { usbdev := 0x5000, intfdata := none }

/-- The first example packet of the packet layout. -/
def pkt_example : Packet :=
  Packet.ofList [0x00, 0x01, 0xDE, 0x27, 0xFE, 0x1C, 0x00, 0x04]

/-! ## Lemmas on the packet layout -/

theorem and_one_ne_zero (v : Nat) : decide (v &&& 0x01 ≠ 0) = v.testBit 0 := by
  have h : v &&& 0x01 = v &&& 2 ^ 0 := rfl
  rw [h, Nat.and_two_pow]
  cases v.testBit 0 <;> simp

theorem and_two_ne_zero (v : Nat) : decide (v &&& 0x02 ≠ 0) = v.testBit 1 := by
  have h : v &&& 0x02 = v &&& 2 ^ 1 := rfl
  rw [h, Nat.and_two_pow]
  cases v.testBit 1 <;> simp

theorem get_unaligned_le16_eq (lo hi : Byte) :
    get_unaligned_le16 lo hi = lo.val + 256 * hi.val := by
  have h := Nat.mul_add_lt_is_or (i := 8) (b := lo.val) (by simp) hi.val
  unfold get_unaligned_le16
  rw [Nat.lor_comm, Nat.shiftLeft_eq, Nat.mul_comm, ← h]
  omega

theorem reported_sample_handle_default (p : Packet) :
    reported_sample (handle_default p) =
      { touching := (p 1).val.testBit 0,
        secondaryButton := (p 1).val.testBit 1,
        x := (p 2).val + 256 * (p 3).val,
        y := (p 4).val + 256 * (p 5).val,
        pressure := (p 6).val + 256 * (p 7).val } := by
  simp only [reported_sample, handle_default, List.foldl, DecodedSample.apply,
    and_one_ne_zero, and_two_ne_zero, get_unaligned_le16_eq]

/-! ## C1: packet layout -/

/-- C1: for every 8-byte packet the sample reported by `handle_default` is the
fixed little-endian layout (touching = bit 0 of byte 1, secondary button = bit 1
of byte 1, x = b2 + 256 b3, y = b4 + 256 b5, pressure = b6 + 256 b7); two
packets that agree on bytes 2..7 and on bits 0 and 1 of byte 1 report the same
sample; and the two example packets decode as listed. -/
theorem handle_default_layout :
    (∀ p : Packet, reported_sample (handle_default p) =
      { touching := (p 1).val.testBit 0,
        secondaryButton := (p 1).val.testBit 1,
        x := (p 2).val + 256 * (p 3).val,
        y := (p 4).val + 256 * (p 5).val,
        pressure := (p 6).val + 256 * (p 7).val }) ∧
    (∀ p q : Packet, (∀ i : Fin USB_AM_PACKET_LEN, 2 ≤ i.val → p i = q i) →
      (p 1).val.testBit 0 = (q 1).val.testBit 0 →
      (p 1).val.testBit 1 = (q 1).val.testBit 1 →
      reported_sample (handle_default p) = reported_sample (handle_default q)) ∧
    reported_sample (handle_default
        (Packet.ofList [0x00, 0x01, 0xDE, 0x27, 0xFE, 0x1C, 0x00, 0x04])) =
      { touching := true, secondaryButton := false,
        x := 0x27DE, y := 0x1CFE, pressure := 0x0400 } ∧
    reported_sample (handle_default
        (Packet.ofList [0x00, 0x02, 0x00, 0x00, 0x00, 0x00, 0x00, 0x00])) =
      { touching := false, secondaryButton := true, x := 0, y := 0, pressure := 0 } := by
  refine ⟨reported_sample_handle_default, ?_, ?_, ?_⟩
  · intro p q hb h0 h1
    rw [reported_sample_handle_default, reported_sample_handle_default, h0, h1,
      hb 2 (by decide), hb 3 (by decide), hb 4 (by decide), hb 5 (by decide),
      hb 6 (by decide), hb 7 (by decide)]
  · rw [reported_sample_handle_default]; decide
  · rw [reported_sample_handle_default]; decide

/-- Witness of C1: two packets that differ in byte 0 and in bits 2..7 of byte 1
only report the same sample. -/
theorem handle_default_layout_witness :
    reported_sample (handle_default
        (Packet.ofList [0xAB, 0xFD, 0xDE, 0x27, 0xFE, 0x1C, 0x00, 0x04])) =
      reported_sample (handle_default
        (Packet.ofList [0x00, 0x01, 0xDE, 0x27, 0xFE, 0x1C, 0x00, 0x04])) :=
  handle_default_layout.2.1 _ _ (by decide) (by decide) (by decide)

/-! ## C4: value ranges -/

/-- C4, counterexample: the all-`0xFF` packet decodes to x = y = pressure =
0xFFFF, outside the ranges [0, 0x27DE], [0, 0x1CFE], [0, 0x400). -/
theorem decoded_ranges_counterexample :
    reported_sample (handle_default
        (Packet.ofList [0xFF, 0xFF, 0xFF, 0xFF, 0xFF, 0xFF, 0xFF, 0xFF])) =
      { touching := true, secondaryButton := true,
        x := 0xFFFF, y := 0xFFFF, pressure := 0xFFFF } ∧
    ¬ ((reported_sample (handle_default
          (Packet.ofList [0xFF, 0xFF, 0xFF, 0xFF, 0xFF, 0xFF, 0xFF, 0xFF]))).x ≤ 0x27DE ∧
       (reported_sample (handle_default
          (Packet.ofList [0xFF, 0xFF, 0xFF, 0xFF, 0xFF, 0xFF, 0xFF, 0xFF]))).y ≤ 0x1CFE ∧
       (reported_sample (handle_default
          (Packet.ofList [0xFF, 0xFF, 0xFF, 0xFF, 0xFF, 0xFF, 0xFF, 0xFF]))).pressure < 0x400) := by
  rw [reported_sample_handle_default]; decide

/-- C4, amended: for every 8-byte packet x, y and pressure lie in [0, 0xFFFF];
the ranges [0, 0x27DE], [0, 0x1CFE] and [0, 0x400] are what `hanvon_probe`
declares through `input_set_abs_params` on its way to registration. -/
theorem decoded_ranges_u16 :
    (∀ p : Packet,
      (reported_sample (handle_default p)).x ≤ 0xFFFF ∧
      (reported_sample (handle_default p)).y ≤ 0xFFFF ∧
      (reported_sample (handle_default p)).pressure ≤ 0xFFFF) ∧
    (∀ (intf : usb_interface) (hp ip dp dma up : Ptr) (reg : Int),
      [ Call.input_set_abs_params .ABS_X 0 0x27DE 4 0,
        Call.input_set_abs_params .ABS_Y 0 0x1CFE 4 0,
        Call.input_set_abs_params .ABS_PRESSURE 0 0x400 0 0 ] <:+:
        (hanvon_probe intf (some hp) (some ip) (some dp) dma (some up) reg).2.2) := by
  constructor
  · intro p
    rw [reported_sample_handle_default]
    have h2 := (p 2).isLt
    have h3 := (p 3).isLt
    have h4 := (p 4).isLt
    have h5 := (p 5).isLt
    have h6 := (p 6).isLt
    have h7 := (p 7).isLt
    simp only
    omega
  · intro intf hp ip dp dma up reg
    by_cases hr : reg = 0
    · refine ⟨[.kzalloc (some hp), .input_allocate_device (some ip),
        .usb_alloc_coherent (some dp), .usb_alloc_urb (some up)],
        [.input_register_device reg, .usb_set_intfdata (some hp)], ?_⟩
      simp [hanvon_probe, hr, probe_abs_params, AM_MAX_ABS_X, AM_MAX_ABS_Y, AM_MAX_PRESSURE]
    · refine ⟨[.kzalloc (some hp), .input_allocate_device (some ip),
        .usb_alloc_coherent (some dp), .usb_alloc_urb (some up)],
        .input_register_device reg ::
          probe_fail3 (some hp) (some ip) (some dp) (some up), ?_⟩
      simp [hanvon_probe, hr, probe_abs_params, AM_MAX_ABS_X, AM_MAX_ABS_Y, AM_MAX_PRESSURE]

/-! ## Lemmas on hanvon_irq -/

theorem is_shutdown_iff (status : Int) :
    is_shutdown status = true ↔
      (status = -ECONNRESET ∨ status = -ENOENT ∨ status = -ESHUTDOWN) := by
  simp [is_shutdown, or_assoc]

theorem hanvon_irq_success (h : hanvon) (data : Packet) (retval : Int) :
    hanvon_irq h data 0 retval =
      ( { h with irq := usb_submit_urb h.irq retval },
        handle_default data ++ [.input_sync, .usb_submit_urb retval] ++
          (if retval ≠ 0 then [.printk] else []) ) := by
  simp [hanvon_irq, hanvon_irq_switch]

theorem hanvon_irq_shutdown (h : hanvon) (data : Packet) (status retval : Int)
    (hs : is_shutdown status = true) :
    hanvon_irq h data status retval = (h, [.printk]) := by
  have h0 : status ≠ 0 := by
    rcases (is_shutdown_iff status).1 hs with e | e | e <;>
      simp [e, ECONNRESET, ENOENT, ESHUTDOWN]
  have hs2 := (is_shutdown_iff status).1 hs
  simp [hanvon_irq, hanvon_irq_switch, h0, hs2]

theorem hanvon_irq_other (h : hanvon) (data : Packet) (status retval : Int)
    (h0 : status ≠ 0) (hs : is_shutdown status = false) :
    hanvon_irq h data status retval =
      ( { h with irq := usb_submit_urb h.irq retval },
        [.printk, .input_sync, .usb_submit_urb retval] ++
          (if retval ≠ 0 then [.printk] else []) ) := by
  have hs2 : ¬ (status = -ECONNRESET ∨ status = -ENOENT ∨ status = -ESHUTDOWN) := by
    intro hh
    rw [(is_shutdown_iff status).2 hh] at hs
    exact Bool.noConfusion hs
  simp only [hanvon_irq, hanvon_irq_switch, if_neg h0, if_neg hs2]
  rfl

theorem hanvon_irq_submits (h : hanvon) (data : Packet) (status retval : Int) :
    (hanvon_irq h data status retval).2.countP Call.is_submit =
      if is_shutdown status = true then 0 else 1 := by
  by_cases hs : is_shutdown status = true
  · rw [hanvon_irq_shutdown h data status retval hs, if_pos hs]; rfl
  · have hs' : is_shutdown status = false := by simpa using hs
    rw [if_neg hs]
    by_cases h0 : status = 0
    · subst h0
      rw [hanvon_irq_success]
      by_cases hr : retval = 0 <;>
        simp [handle_default, List.countP_cons, Call.is_submit, hr]
    · rw [hanvon_irq_other h data status retval h0 hs']
      by_cases hr : retval = 0 <;> simp [List.countP_cons, Call.is_submit, hr]

/-! ## C2: one resubmission per non-shutdown completion -/

/-- C2: a completion whose status is success or any status outside the shutdown
class makes `hanvon_irq` issue exactly one resubmission; a shutdown-class
status makes it issue none; over any sequence of non-shutdown completions the
number of resubmissions equals the number of completions. -/
theorem hanvon_irq_resubmission :
    (∀ (h : hanvon) (data : Packet) (status retval : Int),
      status = 0 ∨ is_shutdown status = false →
      (hanvon_irq h data status retval).2.countP Call.is_submit = 1) ∧
    (∀ (h : hanvon) (data : Packet) (status retval : Int),
      is_shutdown status = true →
      (hanvon_irq h data status retval).2.countP Call.is_submit = 0) ∧
    (∀ (cs : List Completion) (h : hanvon),
      (∀ c ∈ cs, is_shutdown c.status = false) →
      (complete_all h cs).2.countP Call.is_submit = cs.length) := by
  refine ⟨?_, ?_, ?_⟩
  · intro h data status retval hs
    have hs' : is_shutdown status = false := by
      rcases hs with e | e
      · subst e; decide
      · exact e
    rw [hanvon_irq_submits, hs']; rfl
  · intro h data status retval hs
    rw [hanvon_irq_submits, hs]; rfl
  · intro cs
    induction cs with
    | nil => intro h _; rfl
    | cons c cs ih =>
      intro h hall
      have hc : is_shutdown c.status = false := hall c (List.mem_cons_self _ _)
      have hrest : ∀ d ∈ cs, is_shutdown d.status = false :=
        fun d hd => hall d (List.mem_cons_of_mem _ hd)
      simp only [complete_all, List.countP_append, List.length_cons]
      rw [ih _ hrest]
      unfold complete
      rw [hanvon_irq_submits, hc]
      simp +arith

/-- Witness of C2: three completions (success, a transient error, success with
a rejected resubmission) on an armed device issue three resubmissions. -/
theorem hanvon_irq_resubmission_witness :
    (complete_all ctx_armed
      [⟨pkt_example, 0, 0⟩, ⟨pkt_example, -71, 0⟩, ⟨pkt_example, 0, -1⟩]).2.countP
        Call.is_submit = 3 :=
  hanvon_irq_resubmission.2.2
    [⟨pkt_example, 0, 0⟩, ⟨pkt_example, -71, 0⟩, ⟨pkt_example, 0, -1⟩] ctx_armed
    (by decide)

/-! ## C3: order of the calls on success -/

/-- C3: on a successful completion `hanvon_irq` makes, in this order and with
nothing in between, the five reports of the packet in the buffer (contact
button, secondary button, X, Y, pressure), one `input_sync`, and the
resubmission; the only call that can follow is the `printk` of a rejected
resubmission. -/
theorem hanvon_irq_success_order (h : hanvon) (data : Packet) (retval : Int) :
    (hanvon_irq h data 0 retval).2 =
      [ .input_report_key .BTN_LEFT ((data 1).val &&& 0x01),
        .input_report_key .BTN_RIGHT ((data 1).val &&& 0x02),
        .input_report_abs .ABS_X ((data 2).val + 256 * (data 3).val),
        .input_report_abs .ABS_Y ((data 4).val + 256 * (data 5).val),
        .input_report_abs .ABS_PRESSURE ((data 6).val + 256 * (data 7).val),
        .input_sync,
        .usb_submit_urb retval ] ++ (if retval = 0 then [] else [.printk]) := by
  rw [hanvon_irq_success]
  by_cases hr : retval = 0 <;> simp [handle_default, get_unaligned_le16_eq, hr]

/-! ## C10: reports only on success -/

/-- C10: for a shutdown-class status `hanvon_irq` delivers nothing to the input
device (no report, no `input_sync`); for every nonzero status it makes no
button or axis report. -/
theorem hanvon_irq_reports_only_on_success :
    (∀ (h : hanvon) (data : Packet) (status retval : Int),
      is_shutdown status = true →
      (hanvon_irq h data status retval).2.any Call.is_sink = false) ∧
    (∀ (h : hanvon) (data : Packet) (status retval : Int),
      status ≠ 0 →
      (hanvon_irq h data status retval).2.any Call.is_report = false) := by
  constructor
  · intro h data status retval hs
    rw [hanvon_irq_shutdown h data status retval hs]; rfl
  · intro h data status retval h0
    by_cases hs : is_shutdown status = true
    · rw [hanvon_irq_shutdown h data status retval hs]; rfl
    · have hs' : is_shutdown status = false := by simpa using hs
      rw [hanvon_irq_other h data status retval h0 hs']
      by_cases hr : retval = 0 <;> simp [Call.is_report, hr]

/-- Witness of C10: a completion with status `-ENOENT` delivers nothing to the
input device, a completion with status `-71` makes no report. -/
theorem hanvon_irq_reports_only_on_success_witness :
    (hanvon_irq ctx_armed pkt_example (- ENOENT) 0).2.any Call.is_sink = false ∧
    (hanvon_irq ctx_armed pkt_example (-71) 0).2.any Call.is_report = false :=
  ⟨hanvon_irq_reports_only_on_success.1 ctx_armed pkt_example (- ENOENT) 0 (by decide),
   hanvon_irq_reports_only_on_success.2 ctx_armed pkt_example (-71) 0 (by decide)⟩

/-! ## C9: resubmission and the lifecycle -/

/-- C9, counterexample: on a device that `hanvon_close` has just disarmed (no
transfer outstanding), a completion with status 0 still makes `hanvon_irq`
call `usb_submit_urb` once; so does one on a device that was never opened. -/
theorem hanvon_irq_resubmits_when_idle_counterexample :
    (hanvon_close ctx_armed).1.irq.outstanding = 0 ∧
    (hanvon_irq (hanvon_close ctx_armed).1 pkt_example 0 0).2.countP Call.is_submit = 1 ∧
    ctx_idle.irq.outstanding = 0 ∧
    (hanvon_irq ctx_idle pkt_example 0 0).2.countP Call.is_submit = 1 := by
  refine ⟨rfl, ?_, rfl, ?_⟩ <;> rw [hanvon_irq_submits] <;> rfl

/-- C9, amended: `hanvon_irq` consults no lifecycle state.  The calls it makes
are the same for every device context; it issues no resubmission exactly for
the shutdown-class statuses and one resubmission for every other status,
whether or not a transfer is armed; `hanvon_close` itself submits nothing. -/
theorem hanvon_irq_resubmits_by_status_alone :
    (∀ (h k : hanvon) (data : Packet) (status retval : Int),
      (hanvon_irq h data status retval).2 = (hanvon_irq k data status retval).2) ∧
    (∀ (h : hanvon) (data : Packet) (status retval : Int),
      (hanvon_irq h data status retval).2.countP Call.is_submit =
        if is_shutdown status = true then 0 else 1) ∧
    (∀ h : hanvon, (hanvon_close h).2.countP Call.is_submit = 0) := by
  refine ⟨?_, hanvon_irq_submits, fun _ => rfl⟩
  intro h k data status retval
  by_cases hs : is_shutdown status = true
  · rw [hanvon_irq_shutdown h data status retval hs, hanvon_irq_shutdown k data status retval hs]
  · have hs' : is_shutdown status = false := by simpa using hs
    by_cases h0 : status = 0
    · subst h0
      rw [hanvon_irq_success, hanvon_irq_success]
    · rw [hanvon_irq_other h data status retval h0 hs',
        hanvon_irq_other k data status retval h0 hs']

/-! ## C5: hanvon_open -/

theorem hanvon_open_failed (h : hanvon) (ret : Int) (hr : ret ≠ 0) :
    hanvon_open h ret =
      ({ h with irq := { h.irq with dev := h.usbdev } }, - EIO, [.usb_submit_urb ret]) := by
  simp [hanvon_open, usb_submit_urb, hr]

theorem hanvon_open_accepted (h : hanvon) :
    hanvon_open h 0 =
      ({ h with irq := { h.irq with dev := h.usbdev, outstanding := h.irq.outstanding + 1 } },
        0, [.usb_submit_urb 0]) := by
  simp [hanvon_open, usb_submit_urb]

/-- C5: `hanvon_open` returns 0 exactly when the submission is accepted and
`-EIO` for every nonzero submission result; a failed open leaves a context set
up by `hanvon_probe` unchanged (in any context it changes nothing but
re-storing the device in the URB, and adds no outstanding transfer); an
accepted open after a failed one gives what an accepted open alone gives:
return value 0 and, from an idle device, exactly one transfer outstanding. -/
theorem hanvon_open_result :
    (∀ (h : hanvon) (ret : Int), (hanvon_open h ret).2.1 = 0 ↔ ret = 0) ∧
    (∀ (h : hanvon) (ret : Int), ret ≠ 0 → (hanvon_open h ret).2.1 = - EIO) ∧
    (∀ (h : hanvon) (ret : Int), ret ≠ 0 → urb_dev_set h → (hanvon_open h ret).1 = h) ∧
    (∀ (h : hanvon) (ret : Int), ret ≠ 0 →
      (hanvon_open h ret).1 = { h with irq := { h.irq with dev := h.usbdev } } ∧
      (hanvon_open h ret).1.irq.outstanding = h.irq.outstanding) ∧
    (∀ (h : hanvon) (ret : Int), ret ≠ 0 →
      hanvon_open (hanvon_open h ret).1 0 = hanvon_open h 0 ∧
      (hanvon_open (hanvon_open h ret).1 0).2.1 = 0 ∧
      (hanvon_open (hanvon_open h ret).1 0).1.irq.outstanding = h.irq.outstanding + 1) ∧
    (∀ (h : hanvon) (ret : Int), ret ≠ 0 → h.irq.outstanding = 0 →
      (hanvon_open (hanvon_open h ret).1 0).1.irq.outstanding = 1) := by
  refine ⟨?_, ?_, ?_, ?_, ?_, ?_⟩
  · intro h ret
    by_cases hr : ret = 0
    · subst hr; rw [hanvon_open_accepted]
    · rw [hanvon_open_failed h ret hr]; simp [hr, EIO]
  · intro h ret hr
    rw [hanvon_open_failed h ret hr]
  · intro h ret hr hd
    rw [hanvon_open_failed h ret hr]
    unfold urb_dev_set at hd
    cases h with
    | mk addr data data_dma dev usbdev irq =>
      cases irq with
      | mk a d t o =>
        simp only at hd
        simp [hd]
  · intro h ret hr
    rw [hanvon_open_failed h ret hr]
    exact ⟨rfl, rfl⟩
  · intro h ret hr
    rw [hanvon_open_failed h ret hr, hanvon_open_accepted, hanvon_open_accepted]
    exact ⟨rfl, rfl, rfl⟩
  · intro h ret hr ho
    rw [hanvon_open_failed h ret hr, hanvon_open_accepted]
    simp [ho]

/-- Witness of C5: on the idle context, an open rejected with `-ENOMEM` returns
`-EIO` and leaves the context as it was, and the next, accepted open returns 0
with one transfer outstanding. -/
theorem hanvon_open_result_witness :
    (hanvon_open ctx_idle (-12)).2.1 = - EIO ∧
    (hanvon_open ctx_idle (-12)).1 = ctx_idle ∧
    (hanvon_open (hanvon_open ctx_idle (-12)).1 0).2.1 = 0 ∧
    (hanvon_open (hanvon_open ctx_idle (-12)).1 0).1.irq.outstanding = 1 :=
  ⟨hanvon_open_result.2.1 ctx_idle (-12) (by decide),
   hanvon_open_result.2.2.1 ctx_idle (-12) (by decide) rfl,
   (hanvon_open_result.2.2.2.2.1 ctx_idle (-12) (by decide)).2.1,
   hanvon_open_result.2.2.2.2.2 ctx_idle (-12) (by decide) rfl⟩

/-! ## C7: hanvon_close -/

/-- C7: `hanvon_close` is idempotent: closing twice leaves the state that
closing once leaves, and closing a device with no transfer armed leaves its
state unchanged. -/
theorem hanvon_close_idempotent :
    (∀ h : hanvon, (hanvon_close (hanvon_close h).1).1 = (hanvon_close h).1) ∧
    (∀ h : hanvon, h.irq.outstanding = 0 → (hanvon_close h).1 = h) := by
  constructor
  · intro h; rfl
  · intro h ho
    cases h with
    | mk addr data data_dma dev usbdev irq =>
      cases irq with
      | mk a d t o =>
        simp only at ho
        simp [hanvon_close, usb_kill_urb, ho]

/-- Witness of C7: closing the idle context changes nothing. -/
theorem hanvon_close_idempotent_witness :
    (hanvon_close ctx_idle).1 = ctx_idle :=
  hanvon_close_idempotent.2 ctx_idle rfl

/-! ## The context built by hanvon_probe -/

theorem hanvon_probe_success (intf : usb_interface) (hp ip dp dma up : Ptr) :
    hanvon_probe intf (some hp) (some ip) (some dp) dma (some up) 0 =
      ( { intf with intfdata := some (
            { addr := hp, data := dp, data_dma := dma, dev := ip, usbdev := intf.usbdev,
              irq := { addr := up, dev := intf.usbdev, transfer_dma := dma,
                       outstanding := 0 } } : hanvon) },
        0,
        [ .kzalloc (some hp), .input_allocate_device (some ip), .usb_alloc_coherent (some dp),
          .usb_alloc_urb (some up) ] ++ probe_abs_params ++
        [ .input_register_device 0, .usb_set_intfdata (some hp) ] ) := by
  simp [hanvon_probe]

theorem urb_dev_set_of_probe (intf : usb_interface) (kz idev data : Option Ptr) (dma : Ptr)
    (u : Option Ptr) (reg : Int) (h : hanvon)
    (hret : (hanvon_probe intf kz idev data dma u reg).2.1 = 0)
    (hh : (hanvon_probe intf kz idev data dma u reg).1.intfdata = some h) :
    urb_dev_set h ∧ h.irq.outstanding = 0 := by
  cases kz <;> cases idev <;> try (simp [hanvon_probe, ENOMEM] at hret)
  cases data <;> try (simp [hanvon_probe, ENOMEM] at hret)
  cases u <;> try (simp [hanvon_probe, ENOMEM] at hret)
  by_cases hr : reg = 0
  · subst hr
    rw [hanvon_probe_success] at hh
    simp only [Option.some.injEq] at hh
    subst hh
    exact ⟨rfl, rfl⟩
  · simp [hanvon_probe, hr] at hret

theorem urb_dev_set_preserved (h : hanvon) (hd : urb_dev_set h) :
    (∀ ret, urb_dev_set (hanvon_open h ret).1) ∧
    urb_dev_set (hanvon_close h).1 ∧
    (∀ data status retval, urb_dev_set (hanvon_irq h data status retval).1) := by
  unfold urb_dev_set at *
  refine ⟨?_, hd, ?_⟩
  · intro ret
    by_cases hr : ret = 0
    · subst hr; rw [hanvon_open_accepted]
    · rw [hanvon_open_failed h ret hr]
  · intro data status retval
    by_cases hs : is_shutdown status = true
    · rw [hanvon_irq_shutdown h data status retval hs]; exact hd
    · have hs' : is_shutdown status = false := by simpa using hs
      have key : (usb_submit_urb h.irq retval).dev = h.irq.dev := by
        unfold usb_submit_urb; split <;> rfl
      by_cases h0 : status = 0
      · subst h0; rw [hanvon_irq_success]; simpa [key] using hd
      · rw [hanvon_irq_other h data status retval h0 hs']; simpa [key] using hd

/-! ## C6: hanvon_probe -/

/-- C6: `hanvon_probe` returns 0 exactly when the five fallible steps all
succeed; when it returns nonzero, the resources released are exactly the
resources acquired, each once (a free of NULL releases nothing), the interface
is as before the call, no `usb_set_intfdata` is made, and an interface that had
no context attached has none attached. -/
theorem hanvon_probe_cleanup (intf : usb_interface) (kz idev data : Option Ptr) (dma : Ptr)
    (u : Option Ptr) (reg : Int) :
    ((hanvon_probe intf kz idev data dma u reg).2.1 = 0 ↔
      (kz.isSome = true ∧ idev.isSome = true ∧ data.isSome = true ∧ u.isSome = true ∧
        reg = 0)) ∧
    ((hanvon_probe intf kz idev data dma u reg).2.1 ≠ 0 →
      ((hanvon_probe intf kz idev data dma u reg).2.2.filterMap Call.released).Perm
        ((hanvon_probe intf kz idev data dma u reg).2.2.filterMap Call.acquired) ∧
      ((hanvon_probe intf kz idev data dma u reg).2.2.filterMap Call.released).Nodup ∧
      (hanvon_probe intf kz idev data dma u reg).1 = intf ∧
      (∀ ctx, Call.usb_set_intfdata ctx ∉ (hanvon_probe intf kz idev data dma u reg).2.2) ∧
      (intf.intfdata = none →
        (hanvon_probe intf kz idev data dma u reg).1.intfdata = none)) := by
  by_cases hr : reg = 0 <;>
    rcases kz with _ | hp <;> rcases idev with _ | ip <;> rcases data with _ | dp <;>
      rcases u with _ | up <;>
        simp [hanvon_probe, probe_fail1, probe_fail2, probe_fail3, probe_abs_params,
          Call.released, Call.acquired, ENOMEM, hr, List.filterMap_cons] <;>
        exact (List.reverse_perm _).symm

/-- Witness of C6: with the transfer handle allocation failing, the probe of
an unbound interface returns nonzero, releases what it acquired and leaves the
interface unbound. -/
theorem hanvon_probe_cleanup_witness :
    (hanvon_probe intf_unbound (some 0x1000) (some 0x4000) (some 0x2000) 0x3000 none 0).2.1 ≠ 0 ∧
    ((hanvon_probe intf_unbound (some 0x1000) (some 0x4000) (some 0x2000) 0x3000 none
        0).2.2.filterMap Call.released).Perm
      ((hanvon_probe intf_unbound (some 0x1000) (some 0x4000) (some 0x2000) 0x3000 none
        0).2.2.filterMap Call.acquired) ∧
    (hanvon_probe intf_unbound (some 0x1000) (some 0x4000) (some 0x2000) 0x3000 none
        0).1.intfdata = none :=
  ⟨by decide,
   ((hanvon_probe_cleanup intf_unbound (some 0x1000) (some 0x4000) (some 0x2000) 0x3000 none
      0).2 (by decide)).1,
   ((hanvon_probe_cleanup intf_unbound (some 0x1000) (some 0x4000) (some 0x2000) 0x3000 none
      0).2 (by decide)).2.2.2.2 rfl⟩

/-! ## C8: hanvon_disconnect -/

theorem frees_when_idle_rejects_busy_free (p : Ptr) :
    frees_when_idle 1 [.usb_free_coherent (some p)] = false := rfl

/-- C8: on an interface with a context attached, whatever the number of
outstanding transfers, `hanvon_disconnect` detaches the context, kills the
URB, unregisters the input device and only then frees the URB, the packet
buffer and the context, each once, so that both frees happen with no transfer
outstanding; a second disconnect makes no call but `usb_set_intfdata(intf,
NULL)` and leaves the interface as the first one left it. -/
theorem hanvon_disconnect_order :
    (∀ (intf : usb_interface) (h : hanvon), intf.intfdata = some h →
      (hanvon_disconnect intf).2 =
        [ .usb_set_intfdata none, .usb_kill_urb, .input_unregister_device h.dev,
          .usb_free_urb (some h.irq.addr), .usb_free_coherent (some h.data),
          .kfree (some h.addr) ] ∧
      frees_when_idle h.irq.outstanding (hanvon_disconnect intf).2 = true ∧
      (hanvon_disconnect intf).1.intfdata = none) ∧
    (∀ intf : usb_interface,
      (hanvon_disconnect (hanvon_disconnect intf).1).2 = [.usb_set_intfdata none] ∧
      (hanvon_disconnect (hanvon_disconnect intf).1).1 = (hanvon_disconnect intf).1) := by
  constructor
  · intro intf h hh
    simp [hanvon_disconnect, hh, frees_when_idle, outstanding_after, Call.frees_transfer]
  · intro intf
    cases hh : intf.intfdata <;> simp [hanvon_disconnect, hh]

/-- Witness of C8: disconnecting the interface that carries the example
context kills the URB before the two frees. -/
theorem hanvon_disconnect_order_witness :
    (hanvon_disconnect intf_bound).2 =
      [ .usb_set_intfdata none, .usb_kill_urb, .input_unregister_device 0x4000,
        .usb_free_urb (some 0x6000), .usb_free_coherent (some 0x2000),
        .kfree (some 0x1000) ] :=
  (hanvon_disconnect_order.1 intf_bound ctx_idle rfl).1

end Hanvon8
